import Mathlib

/-!
Verification of the neo4j-cdc-sync repository's natural-language
specification against its source.

The embedding models each Python module's control flow over explicit
environments: network interactions (HTTP responses, query outcomes) are
inputs given as functions from sampled time (or attempt index) to an
abstract outcome, and each polling loop is an instance of one of two
combinators mirroring the two loop shapes appearing in the source:

* loopPre  : `while elapsed < timeout: body; sleep step` — the deadline
  is tested before the body (configure_connectors.py: wait_for_connect
  and verify_connector);
* loopPost : `while True: body; if elapsed >= timeout: break; sleep step`
  — the body runs before the deadline test (test_live_cdc.py:
  wait_for_condition and warm_up_pipeline; test_bulk_cdc.py:
  wait_for_propagation).

Wall-clock time is modelled in whole seconds; each loop iteration
advances the clock by exactly its sleep interval (the sleep dominates
the cheap body in the source, and the sampled instants 0, step, 2*step,
… stand for the instants at which the source evaluates its predicate).
-/

namespace Cdc

/-- Generic "deadline first" polling loop: while `elapsed < timeout`,
evaluate the body at the current clock; a `some` result exits the loop,
a `none` result sleeps `step` seconds and retries.  Returns the body's
result (or `none` on deadline) together with the final clock value. -/
def loopPre {α : Type} (body : Nat → Option α) (timeout step : Nat)
    (hs : 0 < step) (elapsed : Nat) : Option α × Nat :=
  if _h : elapsed < timeout then
    match body elapsed with
    | some a => (some a, elapsed)
    | none => loopPre body timeout step hs (elapsed + step)
  else (none, elapsed)
termination_by timeout - elapsed
decreasing_by omega

/-- Generic "body first" polling loop: evaluate the body, exit on a
`some` result, otherwise exit when `elapsed ≥ timeout`, else sleep
`step` seconds and retry. -/
def loopPost {α : Type} (body : Nat → Option α) (timeout step : Nat)
    (hs : 0 < step) (elapsed : Nat) : Option α × Nat :=
  match body elapsed with
  | some a => (some a, elapsed)
  | none =>
    if _h : elapsed < timeout then loopPost body timeout step hs (elapsed + step)
    else (none, elapsed)
termination_by timeout - elapsed
decreasing_by omega

end Cdc

/-! ## terraform/scripts/configure_connectors.py -/

namespace ConfigureConnectors

/-- The Python exception classes that drive control flow in
configure_connectors.py. -/
inductive PyExc where
  | runtimeError
  | timeoutError
  | requestException
  | importError
  | unknownTopicOrPartitionError
  | otherError
deriving DecidableEq, Repr

/-- One poll of `GET url + "/"` in wait_for_connect (line 22): `none`
models a raised requests.RequestException (swallowed at line 26-27),
`some code` an HTTP response with that status code; only an exact 200
ends the wait (line 23). -/
def connect_poll (responses : Nat → Option Nat) (e : Nat) : Option Unit :=
  match responses e with
  | some code => if code = 200 then some () else none
  | none => none

/-- The path wait_for_connect polls: the server root (line 22), not the
connector-listing endpoint. -/
def wait_for_connect_request_path : String := "/"

/-- Default deadline of wait_for_connect (line 16): 180 seconds. -/
def wait_for_connect_default_timeout : Nat := 180

/-- Collapse a finished polling loop into the Except a caller of
wait_for_connect sees: deadline exhaustion raises TimeoutError
(line 30). -/
def connectResultOf (r : Option Unit × Nat) : Except PyExc Nat :=
  match r with
  | (some _, e) => .ok e
  | (none, _) => .error .timeoutError

/-- wait_for_connect (lines 16-30): poll the root every 5 seconds while
elapsed < timeout; every non-200 outcome — including any transport
exception, connection refused among them — is treated identically by
retrying; TimeoutError is raised only at the deadline. -/
def wait_for_connect (responses : Nat → Option Nat) (timeout : Nat) :
    Except PyExc Nat :=
  connectResultOf (Cdc.loopPre (connect_poll responses) timeout 5 (by decide) 0)

/-- What the Kafka admin interaction inside verify_topic_partitions
yields: the environment the function runs against. -/
inductive AdminEnv where
  /-- `from kafka import ...` raises ImportError (line 57). -/
  | importFailed
  /-- KafkaAdminClient construction raises (line 61). -/
  | clientRaises
  /-- describe_topics raises UnknownTopicOrPartitionError (line 101). -/
  | describeUnknownTopic
  /-- describe_topics raises some other exception. -/
  | describeRaises
  /-- metadata returned without the topic (line 74). -/
  | topicAbsent
  /-- topic present with this partition count (line 79). -/
  | topicWith (partitions : Nat)
deriving DecidableEq, Repr

/-- The verdict the partition check observes and reports on its output
streams. -/
inductive Verdict where
  | ok
  | notYetCreated
  | mismatch
  | unverifiable
deriving DecidableEq, Repr

/-- Result of a call to verify_topic_partitions: the verdict it printed,
and the exception escaping the call, if any. -/
structure PartitionCheck where
  verdict : Verdict
  raised : Option PyExc
deriving DecidableEq, Repr

/-- verify_topic_partitions (lines 33-111).

Control flow of the source: the `raise RuntimeError` on a partition
mismatch (line 99) escapes the inner `try` — whose only handler
(line 101) catches UnknownTopicOrPartitionError — and lands in the
OUTER handler `except Exception as e` (line 109), which prints
"Warning: Could not verify partition count" / "Continuing deployment"
and returns normally.  Hence no input makes this function raise,
although its own docstring (lines 51-52) says
"Raises RuntimeError: If partition count doesn't match expected".
`raised` is therefore `none` in every branch. -/
def verify_topic_partitions (env : AdminEnv) (expected : Nat) :
    PartitionCheck :=
  match env with
  | .importFailed => ⟨.unverifiable, none⟩        -- handler at line 105
  | .clientRaises => ⟨.unverifiable, none⟩        -- handler at line 109
  | .describeUnknownTopic => ⟨.notYetCreated, none⟩ -- handler at line 101
  | .describeRaises => ⟨.unverifiable, none⟩      -- handler at line 109
  | .topicAbsent => ⟨.notYetCreated, none⟩        -- lines 74-77
  | .topicWith n =>
    if n = expected then ⟨.ok, none⟩              -- lines 81-82
    else ⟨.mismatch, none⟩ -- lines 83-99 raise; swallowed at line 109

/-- Environment for one call to deploy_connector: the outcome of each
hypothetical PUT attempt (`none` = raised transport exception such as a
timeout, `some code` = HTTP response), and what an existence probe
would answer.  The source only ever consults `put 0`; the rest exists
so that theorems can state that no probe and no retry happen. -/
structure SubmitEnv where
  put : Nat → Option Nat
  connectorExists : Bool

/-- Result of deploy_connector, with counters for the observable
control-plane interactions it performed. -/
structure SubmitResult where
  outcome : Except PyExc Unit
  putAttempts : Nat
  probes : Nat
deriving Repr

/-- deploy_connector (lines 114-127): exactly one PUT of the config; a
transport exception (e.g. a timeout of the 30 s request) propagates to
the caller; a response other than 200/201 raises RuntimeError
(line 126); there is no existence probe and no retry. -/
def deploy_connector (env : SubmitEnv) : SubmitResult :=
  match env.put 0 with
  | none => ⟨.error .requestException, 1, 0⟩
  | some code =>
    if code = 200 ∨ code = 201 then ⟨.ok (), 1, 0⟩
    else ⟨.error .runtimeError, 1, 0⟩

/-- First task state reported by `GET /connectors/name/status`. -/
inductive TaskState where
  | running
  | failed
  | transitional
  | noTasks
deriving DecidableEq, Repr

/-- One poll inside verify_connector (lines 135-152): `none` in the
environment is a raised RequestException (caught, line 151); a 200
response with first task RUNNING succeeds, FAILED raises RuntimeError
(line 147, not caught by the RequestException handler), anything else
keeps polling. -/
def status_poll (resp : Nat → Option (Nat × TaskState)) (e : Nat) :
    Option (Except PyExc Unit) :=
  match resp e with
  | some (code, ts) =>
    if code = 200 then
      match ts with
      | .running => some (.ok ())
      | .failed => some (.error .runtimeError)
      | .transitional => none
      | .noTasks => none
    else none
  | none => none

/-- Default deadline of verify_connector (line 130): 60 seconds. -/
def verify_connector_default_timeout : Nat := 60

/-- Collapse a finished status-polling loop into the Except a caller of
verify_connector sees (TimeoutError raised at line 154). -/
def verifyResultOf (r : Option (Except PyExc Unit) × Nat) :
    Except PyExc Nat :=
  match r with
  | (some (.ok _), e) => .ok e
  | (some (.error ex), _) => .error ex
  | (none, _) => .error .timeoutError

/-- verify_connector (lines 130-154): poll status every 5 seconds while
elapsed < timeout. -/
def verify_connector (resp : Nat → Option (Nat × TaskState))
    (timeout : Nat) : Except PyExc Nat :=
  verifyResultOf (Cdc.loopPre (status_poll resp) timeout 5 (by decide) 0)

/-- Name of the source (publisher) connector. -/
def sourceName : String := "neo4j-master-publisher"

/-- Name of the sink (consumer) connector. -/
def sinkName : String := "neo4j-subscriber-consumer"

/-- The restart statuses main treats as clean (line 301). -/
def restart_ok_codes : List Nat := [200, 202, 204]

/-- Observable control-plane actions of a run of main, in order. -/
inductive Action where
  | waitConnect
  | partitionCheck
  | deploy (name : String)
  | verify (name : String)
  | restartPost
deriving DecidableEq, Repr

/-- Result of the cold-start restart phase of main (lines 296-304). -/
structure RestartPhaseResult where
  outcome : Except PyExc Nat
  restartPosts : Nat
  warned : Bool
  acts : List Action
deriving Repr

/-- Lines 296-304 of main: one POST to
/connectors/neo4j-master-publisher/tasks/0/restart.  `none` models the
POST itself raising (that exception propagates to main's generic
handler, line 312, and fails the run); on any response, a status
outside {200, 202, 204} is merely logged as a warning (line 302) and
the run proceeds to re-verify the publisher, which is the only step of
this phase that can fail the run. -/
def restart_phase (restartStatus : Option Nat)
    (reVerify : Nat → Option (Nat × TaskState)) : RestartPhaseResult :=
  match restartStatus with
  | none => ⟨.error .requestException, 1, false, [.restartPost]⟩
  | some code =>
    ⟨verify_connector reVerify verify_connector_default_timeout, 1,
      decide (code ∉ restart_ok_codes), [.restartPost, .verify sourceName]⟩

/-- Environment of one run of main (lines 235-314). -/
structure MainEnv where
  /-- all five required variables set (lines 238-259) -/
  envVarsPresent : Bool
  /-- EVENT_HUBS_FQDN and EVENT_HUBS_CONNECTION_STRING set (line 270) -/
  eventHubsConfigured : Bool
  connectResponses : Nat → Option Nat
  adminEnv : AdminEnv
  sourceSubmit : SubmitEnv
  sinkSubmit : SubmitEnv
  sourceStatus : Nat → Option (Nat × TaskState)
  sinkStatus : Nat → Option (Nat × TaskState)
  restartStatus : Option Nat
  sourceStatusAfterRestart : Nat → Option (Nat × TaskState)

/-- main (lines 235-314): exit code (0 success, 1 failure — both
`except` arms at lines 309-314 return 1) together with the ordered
trace of control-plane actions performed.  The partition check's result
is bound but cannot alter control flow, because verify_topic_partitions
never raises (see its definition): main always proceeds to deploy. -/
def main (env : MainEnv) : Nat × List Action :=
  if env.envVarsPresent = false then (1, [])
  else
    match wait_for_connect env.connectResponses wait_for_connect_default_timeout with
    | .error _ => (1, [.waitConnect])
    | .ok _ =>
      let preActs : List Action :=
        if env.eventHubsConfigured then [.waitConnect, .partitionCheck]
        else [.waitConnect]
      let _pc : Option PartitionCheck :=
        if env.eventHubsConfigured then some (verify_topic_partitions env.adminEnv 1)
        else none
      match (deploy_connector env.sourceSubmit).outcome with
      | .error _ => (1, preActs ++ [.deploy sourceName])
      | .ok _ =>
        match (deploy_connector env.sinkSubmit).outcome with
        | .error _ => (1, preActs ++ [.deploy sourceName, .deploy sinkName])
        | .ok _ =>
          match verify_connector env.sourceStatus verify_connector_default_timeout with
          | .error _ =>
            (1, preActs ++ [.deploy sourceName, .deploy sinkName, .verify sourceName])
          | .ok _ =>
            match verify_connector env.sinkStatus verify_connector_default_timeout with
            | .error _ =>
              (1, preActs ++ [.deploy sourceName, .deploy sinkName,
                .verify sourceName, .verify sinkName])
            | .ok _ =>
              let rp := restart_phase env.restartStatus env.sourceStatusAfterRestart
              match rp.outcome with
              | .error _ =>
                (1, preActs ++ [.deploy sourceName, .deploy sinkName,
                  .verify sourceName, .verify sinkName] ++ rp.acts)
              | .ok _ =>
                (0, preActs ++ [.deploy sourceName, .deploy sinkName,
                  .verify sourceName, .verify sinkName] ++ rp.acts)

/-- A fully healthy deployment environment except that the relay topic
already exists with 2 partitions: the scenario the partition check is
there to catch. -/
def mismatchEnv : MainEnv where
  envVarsPresent := true
  eventHubsConfigured := true
  connectResponses := fun _ => some 200
  adminEnv := .topicWith 2
  sourceSubmit := ⟨fun _ => some 200, true⟩
  sinkSubmit := ⟨fun _ => some 200, true⟩
  sourceStatus := fun _ => some (200, .running)
  sinkStatus := fun _ => some (200, .running)
  restartStatus := some 204
  sourceStatusAfterRestart := fun _ => some (200, .running)

/-- A submission environment whose first PUT times out at the transport
level although the write completed server-side: the connector exists, and
a second attempt would answer 200. -/
def timedOutSubmitEnv : SubmitEnv where
  put := fun attempt => if attempt = 0 then none else some 200
  connectorExists := true

end ConfigureConnectors

/-! ## heartbeat/heartbeat.py -/

namespace Heartbeat

/-- Outcome of one heartbeat write attempt, as classified by
send_heartbeat's two handlers (lines 58-63): a transport-class error
(ServiceUnavailable / SessionExpired) or any other exception. -/
inductive HbOutcome where
  | ok
  | transportError
  | otherError
deriving DecidableEq, Repr

/-- send_heartbeat (lines 49-63): returns True on success and False on
every exception — both handler arms return False, so no exception ever
propagates out of a heartbeat attempt. -/
def send_heartbeat : HbOutcome → Bool
  | .ok => true
  | .transportError => false
  | .otherError => false

/-- max_failures (line 89). -/
def max_failures : Nat := 10

/-- The mutable loop state of main (lines 88-114): the consecutive
failure counter, and how many times the driver has been discarded and
recreated. -/
structure HbState where
  consecutiveFailures : Nat
  reconnects : Nat
deriving DecidableEq, Repr

/-- One iteration of main's heartbeat loop body (lines 92-114): on
success reset the counter (line 94); on failure increment it, and on
reaching max_failures recreate the driver and reset the counter to zero
(lines 103-114). -/
def heartbeatTick (s : HbState) (o : HbOutcome) : HbState :=
  if send_heartbeat o then { s with consecutiveFailures := 0 }
  else
    let f := s.consecutiveFailures + 1
    if max_failures ≤ f then
      { consecutiveFailures := 0, reconnects := s.reconnects + 1 }
    else { s with consecutiveFailures := f }

/-- The heartbeat loop run over a finite trace of tick outcomes; the
loop itself never exits except through the cooperative SHUTDOWN flag,
so any prefix of ticks is followed by the remaining ticks. -/
def heartbeatRun (s : HbState) (trace : List HbOutcome) : HbState :=
  trace.foldl heartbeatTick s

/-- The inter-tick sleep (lines 116-120): up to `interval` one-second
sleeps, re-checking the SHUTDOWN flag before each; `flag e` is the
flag's value after `e` seconds of this sleep phase.  Returns the total
seconds slept. -/
def tickSleepAux (flag : Nat → Bool) : Nat → Nat → Nat
  | 0, elapsed => elapsed
  | n + 1, elapsed =>
    if flag elapsed then elapsed else tickSleepAux flag n (elapsed + 1)

/-- Total seconds slept by the inter-tick sleep loop. -/
def tickSleep (flag : Nat → Bool) (interval : Nat) : Nat :=
  tickSleepAux flag interval 0

end Heartbeat

/-! ## python/verify_cdc.py -/

namespace VerifyCdc

/-- The per-endpoint aggregate state compare_databases works on:
total node count, total relationship count, and per-label node
counts (keys unique, as in a Python dict). -/
structure EndpointSnapshot where
  nodeCount : Nat
  relationshipCount : Nat
  labelCounts : List (String × Nat)

/-- `labels.get(label, 0)` — a label absent from the mapping counts
as 0 (lines 90-91). -/
def lookupLabel (m : List (String × Nat)) (l : String) : Nat :=
  match m.find? (fun p => p.1 == l) with
  | some p => p.2
  | none => 0

/-- `all_labels = set(source_labels) | set(target_labels)` (line 86). -/
def allLabels (s t : EndpointSnapshot) : List String :=
  (s.labelCounts.map Prod.fst ++ t.labelCounts.map Prod.fst).dedup

/-- The label the sink connector adds to replicated nodes; excluded
from the equality requirement (lines 93-102). -/
def source_tracking_label : String := "SourceEvent"

/-- The `all_match` accumulator of the label loop (lines 89-114): every
label in either snapshot, other than SourceEvent, must have equal
counts on both sides. -/
def labels_all_match (s t : EndpointSnapshot) : Bool :=
  (allLabels s t).all fun l =>
    (l == source_tracking_label) ||
      (lookupLabel s.labelCounts l == lookupLabel t.labelCounts l)

/-- compare_databases verdict (lines 31-144): `nodes_match and
rels_match and all_match` (line 121).  The `labels_match` flag computed
at line 59 does not feed the verdict. -/
def compare_databases (s t : EndpointSnapshot) : Bool :=
  (s.nodeCount == t.nodeCount) &&
    (s.relationshipCount == t.relationshipCount) && labels_all_match s t

/-- The informational count reported for SourceEvent (lines 94-95,
125-127): the target-side count, never compared. -/
def source_event_info (t : EndpointSnapshot) : Nat :=
  lookupLabel t.labelCounts source_tracking_label

end VerifyCdc

/-! ## python/test_live_cdc.py -/

namespace TestLiveCdc

/-- PROPAGATION_TIMEOUT (line 30), the default timeout of
wait_for_condition. -/
def PROPAGATION_TIMEOUT : Nat := 90

/-- The predicate evaluated at a sampled instant (check_fn at line 47;
the check functions passed in the source swallow their own exceptions
and return False, so the body is total). -/
def condition_poll (check : Nat → Bool) (e : Nat) : Option Unit :=
  if check e then some () else none

/-- wait_for_condition (lines 33-51): evaluate check_fn first, then
compare elapsed against the timeout, then sleep the poll interval; the
poll interval is positive (default 0.5 s; whole seconds here).  Returns
(success, elapsed). -/
def wait_for_condition (check : Nat → Bool) (timeout poll : Nat)
    (hp : 0 < poll) : Bool × Nat :=
  match Cdc.loopPost (condition_poll check) timeout poll hp 0 with
  | (some _, e) => (true, e)
  | (none, e) => (false, e)

/-- The warm-up deadline (line 91): 180 seconds after the marker's
creation. -/
def warmup_timeout : Nat := 180

/-- The source-side writes warm_up_pipeline performs, in order. -/
inductive WarmAction where
  | createMarker
  | deleteMarker
deriving DecidableEq, Repr

/-- warm_up_pipeline (lines 54-109): create the uniquely-tagged marker
on the source, poll the target for it each second (check first, then
the 180 s deadline test, then sleep 1 — lines 86-96), and afterwards —
on the success path and the timeout path alike — attempt the marker's
deletion on the source (lines 98-102, unconditionally after the loop).
`check e` is whether the marker is visible on the target `e` seconds
after creation (check_warmup swallows its own exceptions and returns
False, lines 73-81).  Returns the success flag and the ordered trace of
source-side writes. -/
def warm_up_pipeline (check : Nat → Bool) : Bool × List WarmAction :=
  let success :=
    (Cdc.loopPost (condition_poll check) warmup_timeout 1 (by decide) 0).1.isSome
  (success, [WarmAction.createMarker, WarmAction.deleteMarker])

end TestLiveCdc

/-! ## python/test_bulk_cdc.py -/

namespace TestBulkCdc

/-- EXPECTED_NODES (line 33): 10 Company + 100 Person. -/
def EXPECTED_NODES : Nat := 110

/-- EXPECTED_RELS (line 34): 100 WORKS_AT + 345 KNOWS. -/
def EXPECTED_RELS : Nat := 445

/-- PROPAGATION_TIMEOUT (line 35). -/
def PROPAGATION_TIMEOUT : Nat := 180

/-- The four counts check_counts reads (lines 100-110). -/
structure BulkCounts where
  source_nodes : Nat
  source_rels : Nat
  target_nodes : Nat
  target_rels : Nat
deriving DecidableEq, Repr

/-- check_counts verdict (lines 112-117): all four counts must equal
the hard-coded expected constants; source/target equality is not what
is tested. -/
def check_counts (c : BulkCounts) : Bool :=
  (c.source_nodes == EXPECTED_NODES) && (c.source_rels == EXPECTED_RELS) &&
    (c.target_nodes == EXPECTED_NODES) && (c.target_rels == EXPECTED_RELS)

/-- One poll of wait_for_propagation (line 139): take fresh counts and
test them. -/
def propagation_poll (counts : Nat → BulkCounts) (e : Nat) :
    Option BulkCounts :=
  if check_counts (counts e) then some (counts e) else none

/-- wait_for_propagation (lines 122-155): poll check_counts first, then
the 180 s deadline, then sleep 10 s.  Returns the successful counts (or
`none` on timeout) and the elapsed time. -/
def wait_for_propagation (counts : Nat → BulkCounts) :
    Option BulkCounts × Nat :=
  Cdc.loopPost (propagation_poll counts) PROPAGATION_TIMEOUT 10 (by decide) 0

end TestBulkCdc

/-! ## Polling combinator lemmas -/

namespace Cdc

/-- One-step exit lemma for loopPre: a hit before the deadline at the
current clock returns immediately. -/
theorem loopPre_hit {α : Type} (body : Nat → Option α) (timeout step : Nat)
    (hs : 0 < step) (elapsed : Nat) (h : elapsed < timeout) (a : α)
    (hb : body elapsed = some a) :
    loopPre body timeout step hs elapsed = (some a, elapsed) := by
  rw [loopPre]
  simp [h, hb]

/-- One-step exit lemma for loopPost: a hit at the current clock returns
immediately, regardless of the deadline. -/
theorem loopPost_hit {α : Type} (body : Nat → Option α) (timeout step : Nat)
    (hs : 0 < step) (elapsed : Nat) (a : α) (hb : body elapsed = some a) :
    loopPost body timeout step hs elapsed = (some a, elapsed) := by
  rw [loopPost]
  simp [hb]

/-- If the body never produces a result at any clock value sampled
before the deadline, loopPre runs to its deadline: the result is `none`
and the final clock is at least `timeout`. -/
theorem loopPre_exhaust {α : Type} (body : Nat → Option α)
    (timeout step : Nat) (hs : 0 < step) (elapsed : Nat)
    (hnone : ∀ e, e < timeout → body e = none) :
    (loopPre body timeout step hs elapsed).1 = none ∧
      timeout ≤ (loopPre body timeout step hs elapsed).2 := by
  by_cases h : elapsed < timeout
  · rw [loopPre]
    simp only [h, dite_true, hnone elapsed h]
    exact loopPre_exhaust body timeout step hs (elapsed + step) hnone
  · rw [loopPre]
    simp only [h, dite_false]
    exact ⟨trivial, by omega⟩
termination_by timeout - elapsed
decreasing_by omega

/-- If the body never produces a result at any clock value up to
`timeout + step` (the largest clock the loop can sample), loopPost runs
to its deadline: the result is `none` and the final clock is at least
`timeout`. -/
theorem loopPost_exhaust {α : Type} (body : Nat → Option α)
    (timeout step : Nat) (hs : 0 < step) (elapsed : Nat)
    (hnone : ∀ e, e < timeout + step → body e = none)
    (hel : elapsed < timeout + step) :
    (loopPost body timeout step hs elapsed).1 = none ∧
      timeout ≤ (loopPost body timeout step hs elapsed).2 := by
  rw [loopPost]
  simp only [hnone elapsed hel]
  by_cases h : elapsed < timeout
  · simp only [h, dite_true]
    exact loopPost_exhaust body timeout step hs (elapsed + step) hnone (by omega)
  · simp only [h, dite_false]
    exact ⟨trivial, by omega⟩
termination_by timeout - elapsed
decreasing_by omega

/-- If some sampled clock value before the deadline yields a hit, the
loopPre loop succeeds (the body's other answers may be arbitrary). -/
theorem loopPre_of_hit {α : Type} (body : Nat → Option α)
    (timeout step : Nat) (hs : 0 < step) (elapsed k : Nat)
    (hk : elapsed + step * k < timeout)
    (hb : (body (elapsed + step * k)).isSome) :
    (loopPre body timeout step hs elapsed).1.isSome := by
  induction k generalizing elapsed with
  | zero =>
    simp only [Nat.mul_zero, Nat.add_zero] at hk hb
    rw [loopPre]
    simp only [hk, dite_true]
    cases hbody : body elapsed with
    | none => rw [hbody] at hb; simp at hb
    | some a => simp
  | succ n ih =>
    rw [loopPre]
    have hel : elapsed < timeout := by
      have := hk
      omega
    simp only [hel, dite_true]
    cases hbody : body elapsed with
    | some a => simp
    | none =>
      have harr : elapsed + step + step * n = elapsed + step * (n + 1) := by ring
      apply ih
      · omega
      · rw [harr]; exact hb

/-- A loopPost success is produced by the body at some sampled clock
value: whatever the loop returns as `some a` was one of the body's
answers. -/
theorem loopPost_some_of {α : Type} (body : Nat → Option α)
    (timeout step : Nat) (hs : 0 < step) (elapsed : Nat) (a : α)
    (hres : (loopPost body timeout step hs elapsed).1 = some a) :
    ∃ e, body e = some a := by
  rw [loopPost] at hres
  cases hbody : body elapsed with
  | some b =>
    rw [hbody] at hres
    simp at hres
    exact ⟨elapsed, by rw [hbody, hres]⟩
  | none =>
    rw [hbody] at hres
    by_cases h : elapsed < timeout
    · simp only [h, dite_true] at hres
      exact loopPost_some_of body timeout step hs (elapsed + step) a hres
    · simp [h] at hres
termination_by timeout - elapsed
decreasing_by omega

end Cdc

/-! ## Helper lemmas about the embedded functions -/

namespace ConfigureConnectors

/-- A poll whose response is anything but an HTTP 200 — a raised
exception included — keeps wait_for_connect polling. -/
theorem connect_poll_eq_none (responses : Nat → Option Nat) (e : Nat)
    (h : responses e ≠ some 200) : connect_poll responses e = none := by
  unfold connect_poll
  cases hr : responses e with
  | none => rfl
  | some code =>
    have hcode : ¬ code = 200 := by
      intro hc
      exact h (by rw [hr, hc])
    simp [hcode]

/-- An HTTP 200 ends the wait_for_connect polling body. -/
theorem connect_poll_eq_some (responses : Nat → Option Nat) (e : Nat)
    (h : responses e = some 200) : connect_poll responses e = some () := by
  unfold connect_poll
  rw [h]
  simp

/-- A finished loop with no hit maps to TimeoutError. -/
theorem connectResultOf_none (r : Option Unit × Nat) (h : r.1 = none) :
    connectResultOf r = .error .timeoutError := by
  obtain ⟨o, e⟩ := r
  cases o with
  | none => rfl
  | some a => simp at h

/-- A finished loop with a hit maps to a normal return. -/
theorem connectResultOf_isSome (r : Option Unit × Nat) (h : r.1.isSome) :
    ∃ e, connectResultOf r = .ok e := by
  obtain ⟨o, e⟩ := r
  cases o with
  | none => simp at h
  | some a => exact ⟨e, rfl⟩

/-- If the control plane answers 200 from the start, wait_for_connect
returns immediately with no elapsed time. -/
theorem wait_for_connect_immediate (responses : Nat → Option Nat)
    (timeout : Nat) (ht : 0 < timeout) (h : responses 0 = some 200) :
    wait_for_connect responses timeout = .ok 0 := by
  unfold wait_for_connect
  rw [Cdc.loopPre_hit _ _ _ _ _ ht () (connect_poll_eq_some responses 0 h)]
  rfl

/-- A 200 response with the first task RUNNING ends the
verify_connector polling body successfully. -/
theorem status_poll_running (resp : Nat → Option (Nat × TaskState))
    (e : Nat) (h : resp e = some (200, .running)) :
    status_poll resp e = some (.ok ()) := by
  unfold status_poll
  rw [h]
  simp

/-- If the connector reports RUNNING from the first poll,
verify_connector returns immediately. -/
theorem verify_connector_immediate (resp : Nat → Option (Nat × TaskState))
    (timeout : Nat) (ht : 0 < timeout) (h : resp 0 = some (200, .running)) :
    verify_connector resp timeout = .ok 0 := by
  unfold verify_connector
  rw [Cdc.loopPre_hit _ _ _ _ _ ht _ (status_poll_running resp 0 h)]
  rfl

end ConfigureConnectors

namespace Heartbeat

/-- The inter-tick sleep never exceeds the configured interval. -/
theorem tickSleepAux_le (flag : Nat → Bool) (n elapsed : Nat) :
    tickSleepAux flag n elapsed ≤ elapsed + n := by
  induction n generalizing elapsed with
  | zero => simp [tickSleepAux]
  | succ m ih =>
    unfold tickSleepAux
    by_cases hf : flag elapsed
    · rw [if_pos hf]
      omega
    · rw [if_neg hf]
      have := ih (elapsed + 1)
      omega

/-- Once the (monotone) shutdown flag is set, the sleep loop stops at
the first per-second check that observes it: the clock on exit never
passes the time the flag was observed set. -/
theorem tickSleepAux_stop (flag : Nat → Bool) (T : Nat)
    (hmono : ∀ a b, a ≤ b → flag a = true → flag b = true)
    (hT : flag T = true) (n elapsed : Nat) :
    tickSleepAux flag n elapsed ≤ max elapsed T := by
  induction n generalizing elapsed with
  | zero => simp [tickSleepAux]
  | succ m ih =>
    unfold tickSleepAux
    by_cases hf : flag elapsed
    · rw [if_pos hf]
      exact Nat.le_max_left _ _
    · rw [if_neg hf]
      have hlt : elapsed < T := by
        rcases Nat.lt_or_ge elapsed T with h | h
        · exact h
        · exact absurd (hmono T elapsed h hT) hf
      have := ih (elapsed + 1)
      omega

end Heartbeat

namespace VerifyCdc

/-- A label carried by neither snapshot counts as 0. -/
theorem lookupLabel_not_mem (m : List (String × Nat)) (l : String)
    (h : l ∉ m.map Prod.fst) : lookupLabel m l = 0 := by
  unfold lookupLabel
  have hfind : m.find? (fun p => p.1 == l) = none := by
    rw [List.find?_eq_none]
    intro p hp
    simp only [beq_iff_eq]
    intro hpl
    exact h (List.mem_map.mpr ⟨p, hp, hpl⟩)
  rw [hfind]

end VerifyCdc

/-! ## Claim theorems -/

/-- C1: the claim says a partition-count mismatch must make main return a
non-zero outcome without calling deploy_connector.  The code violates
this: the RuntimeError raised for the mismatch is swallowed by
verify_topic_partitions's own outer `except Exception` handler, so in an
otherwise healthy environment whose relay topic has 2 partitions the
check observes `mismatch`, raises nothing, and main deploys both
connectors and exits 0. -/
theorem c1_partition_mismatch_does_not_abort :
    ConfigureConnectors.verify_topic_partitions (.topicWith 2) 1 =
      ⟨.mismatch, none⟩ ∧
    (ConfigureConnectors.main ConfigureConnectors.mismatchEnv).1 = 0 ∧
    ConfigureConnectors.Action.deploy ConfigureConnectors.sourceName ∈
      (ConfigureConnectors.main ConfigureConnectors.mismatchEnv).2 := by
  have hw : ConfigureConnectors.wait_for_connect (fun _ => some 200)
      ConfigureConnectors.wait_for_connect_default_timeout = .ok 0 :=
    ConfigureConnectors.wait_for_connect_immediate _ _ (by decide) rfl
  have hv : ConfigureConnectors.verify_connector
      (fun _ => some (200, ConfigureConnectors.TaskState.running))
      ConfigureConnectors.verify_connector_default_timeout = .ok 0 :=
    ConfigureConnectors.verify_connector_immediate _ _ (by decide) rfl
  have hmain : ConfigureConnectors.main ConfigureConnectors.mismatchEnv =
      (0, [.waitConnect, .partitionCheck,
        .deploy ConfigureConnectors.sourceName,
        .deploy ConfigureConnectors.sinkName,
        .verify ConfigureConnectors.sourceName,
        .verify ConfigureConnectors.sinkName,
        .restartPost, .verify ConfigureConnectors.sourceName]) := by
    simp [ConfigureConnectors.main, ConfigureConnectors.mismatchEnv, hw, hv,
      ConfigureConnectors.deploy_connector, ConfigureConnectors.restart_phase]
  refine ⟨rfl, ?_, ?_⟩
  · rw [hmain]
  · rw [hmain]
    simp

/-- C2 counterexample: the claim says a submission that times out at the
transport level is not treated as failed — the supervisor should probe
for the connector's existence and retry up to 3 times.  The code
refutes this: in an environment whose first PUT times out while the
connector does exist (a probe would answer yes, and a second attempt
would answer 200), deploy_connector fails at once with the propagated
transport exception, after exactly one PUT and zero probes. -/
theorem c2_counterexample_timeout_fails_without_probe :
    ConfigureConnectors.deploy_connector ConfigureConnectors.timedOutSubmitEnv =
      ⟨.error .requestException, 1, 0⟩ ∧
    ConfigureConnectors.timedOutSubmitEnv.connectorExists = true ∧
    ConfigureConnectors.timedOutSubmitEnv.put 1 = some 200 :=
  ⟨rfl, rfl, rfl⟩

/-- C2 (amended): when a connector submission times out at the transport
level, the submission fails immediately: deploy_connector issues exactly
one PUT, performs no existence probe and no retry, and the transport
exception propagates to the caller. -/
theorem c2_amended_single_attempt (env : ConfigureConnectors.SubmitEnv)
    (h : env.put 0 = none) :
    (ConfigureConnectors.deploy_connector env).outcome =
      .error .requestException ∧
    (ConfigureConnectors.deploy_connector env).putAttempts = 1 ∧
    (ConfigureConnectors.deploy_connector env).probes = 0 := by
  unfold ConfigureConnectors.deploy_connector
  rw [h]
  exact ⟨rfl, rfl, rfl⟩

/-- C2 witness: the amended claim at the concrete timed-out
environment. -/
theorem c2_amended_single_attempt_witness :
    (ConfigureConnectors.deploy_connector
      ConfigureConnectors.timedOutSubmitEnv).outcome =
      .error .requestException ∧
    (ConfigureConnectors.deploy_connector
      ConfigureConnectors.timedOutSubmitEnv).putAttempts = 1 ∧
    (ConfigureConnectors.deploy_connector
      ConfigureConnectors.timedOutSubmitEnv).probes = 0 :=
  c2_amended_single_attempt ConfigureConnectors.timedOutSubmitEnv rfl

/-- C5: from a zero failure counter, ten consecutive transport failures
make the Keepalive Agent reconnect exactly once and reset the counter to
zero; a non-transport error ticks the state machine exactly like a
transport error (send_heartbeat never propagates either); and the loop
keeps processing subsequent ticks after any prefix, i.e. it never
terminates the process on failures. -/
theorem c5_heartbeat_reconnects_once (s : Heartbeat.HbState)
    (h : s.consecutiveFailures = 0) :
    Heartbeat.heartbeatRun s
      (List.replicate Heartbeat.max_failures .transportError) =
      ⟨0, s.reconnects + 1⟩ ∧
    (∀ s2 : Heartbeat.HbState,
      Heartbeat.heartbeatTick s2 .otherError =
        Heartbeat.heartbeatTick s2 .transportError) ∧
    (∀ s0 : Heartbeat.HbState, ∀ t1 t2 : List Heartbeat.HbOutcome,
      Heartbeat.heartbeatRun s0 (t1 ++ t2) =
        Heartbeat.heartbeatRun (Heartbeat.heartbeatRun s0 t1) t2) := by
  obtain ⟨f, r⟩ := s
  simp only at h
  subst h
  refine ⟨rfl, fun s2 => rfl, fun s0 t1 t2 => ?_⟩
  simp [Heartbeat.heartbeatRun, List.foldl_append]

/-- C5 witness: the reconnect-once behavior from the initial state. -/
theorem c5_heartbeat_reconnects_once_witness :
    Heartbeat.heartbeatRun ⟨0, 0⟩
      (List.replicate Heartbeat.max_failures .transportError) =
      ⟨0, 0 + 1⟩ :=
  (c5_heartbeat_reconnects_once ⟨0, 0⟩ rfl).1

/-- C6: the inter-tick sleep re-checks the shutdown flag every second;
once the (monotone) flag is set by second T, the loop sleeps at most
min T interval seconds in total, so a stop request set during some
second is honored within at most one second of further sleep, for every
interval. -/
theorem c6_shutdown_honored_within_a_second (flag : Nat → Bool)
    (interval T : Nat)
    (hmono : ∀ a b : Nat, a ≤ b → flag a = true → flag b = true)
    (hT : flag T = true) :
    Heartbeat.tickSleep flag interval ≤ min T interval := by
  have h1 := Heartbeat.tickSleepAux_stop flag T hmono hT interval 0
  have h2 := Heartbeat.tickSleepAux_le flag interval 0
  rw [max_eq_right (Nat.zero_le T)] at h1
  unfold Heartbeat.tickSleep
  exact le_min h1 (by omega)

/-- C6 witness: a flag set from second 3 on, with a 30-second
interval. -/
theorem c6_shutdown_honored_within_a_second_witness :
    Heartbeat.tickSleep (fun s => decide (3 ≤ s)) 30 ≤ min 3 30 :=
  c6_shutdown_honored_within_a_second (fun s => decide (3 ≤ s)) 30 3
    (fun a b hab ha => by
      simp only [decide_eq_true_eq] at ha ⊢
      omega)
    (by decide)

/-- C3: the convergence verdict of compare_databases is true exactly
when the total node counts match, the total relationship counts match,
and every label other than the source-tracking label SourceEvent has
equal per-label counts on both sides; SourceEvent is exempt from the
equality requirement. -/
theorem c3_matched_iff (s t : VerifyCdc.EndpointSnapshot) :
    VerifyCdc.compare_databases s t = true ↔
      (s.nodeCount = t.nodeCount ∧
       s.relationshipCount = t.relationshipCount ∧
       ∀ l : String, l ≠ VerifyCdc.source_tracking_label →
         VerifyCdc.lookupLabel s.labelCounts l =
           VerifyCdc.lookupLabel t.labelCounts l) := by
  unfold VerifyCdc.compare_databases VerifyCdc.labels_all_match
  simp only [Bool.and_eq_true, beq_iff_eq, List.all_eq_true, Bool.or_eq_true]
  constructor
  · rintro ⟨⟨hn, hr⟩, hall⟩
    refine ⟨hn, hr, fun l hl => ?_⟩
    by_cases hmem : l ∈ VerifyCdc.allLabels s t
    · rcases hall l hmem with h | h
      · exact absurd h hl
      · exact h
    · have hs : l ∉ s.labelCounts.map Prod.fst := by
        intro hmem2
        apply hmem
        unfold VerifyCdc.allLabels
        rw [List.mem_dedup]
        exact List.mem_append.mpr (Or.inl hmem2)
      have ht2 : l ∉ t.labelCounts.map Prod.fst := by
        intro hmem2
        apply hmem
        unfold VerifyCdc.allLabels
        rw [List.mem_dedup]
        exact List.mem_append.mpr (Or.inr hmem2)
      rw [VerifyCdc.lookupLabel_not_mem _ _ hs,
        VerifyCdc.lookupLabel_not_mem _ _ ht2]
  · rintro ⟨hn, hr, hall⟩
    refine ⟨⟨hn, hr⟩, fun l _ => ?_⟩
    by_cases hl : l = VerifyCdc.source_tracking_label
    · exact Or.inl hl
    · exact Or.inr (hall l hl)

/-- C3 witness: two snapshots equal everywhere except that the target
additionally carries 5 SourceEvent nodes are declared matched, and the
theorem yields the per-label equality for an ordinary label. -/
theorem c3_matched_iff_witness :
    VerifyCdc.lookupLabel
      (⟨5, 7, [("Person", 3)]⟩ : VerifyCdc.EndpointSnapshot).labelCounts
      "Person" =
    VerifyCdc.lookupLabel
      (⟨5, 7, [("Person", 3), ("SourceEvent", 5)]⟩ :
        VerifyCdc.EndpointSnapshot).labelCounts "Person" :=
  ((c3_matched_iff ⟨5, 7, [("Person", 3)]⟩
      ⟨5, 7, [("Person", 3), ("SourceEvent", 5)]⟩).mp (by decide)).2.2
    "Person" (by decide)

/-- C4: if the marker has not appeared on the target by any second up to
the 180-second deadline, warm_up_pipeline terminates with a failure
indication (its polling loop is total by construction), and its
source-side write trace still contains the marker deletion, which is
attempted on every execution path. -/
theorem c4_warmup_times_out_and_cleans_up (check : Nat → Bool)
    (h : ∀ e, e ≤ TestLiveCdc.warmup_timeout → check e = false) :
    (TestLiveCdc.warm_up_pipeline check).1 = false ∧
    TestLiveCdc.WarmAction.deleteMarker ∈
      (TestLiveCdc.warm_up_pipeline check).2 := by
  constructor
  · unfold TestLiveCdc.warm_up_pipeline
    have hnone : ∀ e, e < TestLiveCdc.warmup_timeout + 1 →
        TestLiveCdc.condition_poll check e = none := by
      intro e he
      have hce : check e = false := h e (by omega)
      simp [TestLiveCdc.condition_poll, hce]
    have hex := Cdc.loopPost_exhaust (TestLiveCdc.condition_poll check)
      TestLiveCdc.warmup_timeout 1 (by decide) 0 hnone (by omega)
    simp [hex.1]
  · simp [TestLiveCdc.warm_up_pipeline]

/-- C4 witness: a marker that never arrives. -/
theorem c4_warmup_times_out_and_cleans_up_witness :
    (TestLiveCdc.warm_up_pipeline (fun _ => false)).1 = false ∧
    TestLiveCdc.WarmAction.deleteMarker ∈
      (TestLiveCdc.warm_up_pipeline (fun _ => false)).2 :=
  c4_warmup_times_out_and_cleans_up (fun _ => false) (fun _ _ => rfl)

/-- C7 counterexample: the claim says the readiness wait polls the
connector-listing endpoint with a default deadline of 240 seconds; the
code's default deadline is not 240 and the polled path is not the
listing endpoint. -/
theorem c7_counterexample_default_and_path :
    ConfigureConnectors.wait_for_connect_default_timeout ≠ 240 ∧
    ConfigureConnectors.wait_for_connect_request_path ≠ "/connectors" := by
  exact ⟨by decide, by decide⟩

/-- C7 (amended): the control-plane readiness wait polls the server root
with a default deadline of 180 seconds, retrying every 5 seconds; every
failed poll — transport errors such as connection refused included — is
ignored uniformly with no special diagnosis and never aborts the wait,
which fails only when the deadline elapses; a 200 at any sampled instant
before the deadline ends the wait successfully even if every earlier
poll raised. -/
theorem c7_amended_wait_behavior :
    ConfigureConnectors.wait_for_connect_default_timeout = 180 ∧
    ConfigureConnectors.wait_for_connect_request_path = "/" ∧
    (∀ responses : Nat → Option Nat, ∀ timeout : Nat,
      (∀ e, responses e ≠ some 200) →
      ConfigureConnectors.wait_for_connect responses timeout =
        .error .timeoutError) ∧
    (∀ responses : Nat → Option Nat, ∀ timeout k : Nat,
      5 * k < timeout → responses (5 * k) = some 200 →
      ∃ e, ConfigureConnectors.wait_for_connect responses timeout =
        .ok e) := by
  refine ⟨rfl, rfl, ?_, ?_⟩
  · intro responses timeout h
    unfold ConfigureConnectors.wait_for_connect
    apply ConfigureConnectors.connectResultOf_none
    exact (Cdc.loopPre_exhaust _ _ _ _ _
      (fun e _ => ConfigureConnectors.connect_poll_eq_none responses e (h e))).1
  · intro responses timeout k hk h200
    unfold ConfigureConnectors.wait_for_connect
    apply ConfigureConnectors.connectResultOf_isSome
    apply Cdc.loopPre_of_hit _ _ _ _ 0 k (by omega)
    have h0 : (0 : Nat) + 5 * k = 5 * k := by omega
    rw [h0, ConfigureConnectors.connect_poll_eq_some responses (5 * k) h200]
    rfl

/-- C7 witness: the amended claim at a control plane that never comes
up within a 20-second deadline. -/
theorem c7_amended_wait_behavior_witness :
    ConfigureConnectors.wait_for_connect (fun _ => none) 20 =
      .error .timeoutError :=
  c7_amended_wait_behavior.2.2.1 (fun _ => none) 20 (fun _ => by simp)

/-- C8: the cold-start phase issues exactly one restart POST of the
publisher's task 0; a non-2xx/3xx restart response is logged as a
warning and does not abort the run — the phase's outcome is exactly the
publisher re-verification's outcome, and the action trace shows the
re-verification following the restart. -/
theorem c8_restart_is_best_effort (code : Nat)
    (re : Nat → Option (Nat × ConfigureConnectors.TaskState))
    (h : ¬ (200 ≤ code ∧ code < 400)) :
    (ConfigureConnectors.restart_phase (some code) re).restartPosts = 1 ∧
    (ConfigureConnectors.restart_phase (some code) re).warned = true ∧
    (ConfigureConnectors.restart_phase (some code) re).outcome =
      ConfigureConnectors.verify_connector re
        ConfigureConnectors.verify_connector_default_timeout ∧
    (ConfigureConnectors.restart_phase (some code) re).acts =
      [.restartPost, .verify ConfigureConnectors.sourceName] := by
  have hco : code ∉ ConfigureConnectors.restart_ok_codes := by
    unfold ConfigureConnectors.restart_ok_codes
    simp only [List.mem_cons, List.mem_singleton, List.not_mem_nil,
      not_false_eq_true, and_true, not_or]
    omega
  unfold ConfigureConnectors.restart_phase
  refine ⟨rfl, ?_, rfl, rfl⟩
  simp [hco]

/-- C8 witness: a 500 restart response against a restarted task that
comes back RUNNING immediately. -/
theorem c8_restart_is_best_effort_witness :
    (ConfigureConnectors.restart_phase (some 500)
      (fun _ => some (200, .running))).restartPosts = 1 ∧
    (ConfigureConnectors.restart_phase (some 500)
      (fun _ => some (200, .running))).warned = true ∧
    (ConfigureConnectors.restart_phase (some 500)
      (fun _ => some (200, .running))).outcome =
      ConfigureConnectors.verify_connector (fun _ => some (200, .running))
        ConfigureConnectors.verify_connector_default_timeout ∧
    (ConfigureConnectors.restart_phase (some 500)
      (fun _ => some (200, .running))).acts =
      [.restartPost, .verify ConfigureConnectors.sourceName] :=
  c8_restart_is_best_effort 500 (fun _ => some (200, .running)) (by omega)

/-- C9 (implicit): wait_for_condition evaluates the predicate before the
deadline test, so a predicate true at the first evaluation yields
(true, 0) even with a zero timeout; a predicate that never becomes true
yields (false, elapsed) with elapsed at least the timeout — the function
is total, so it neither raises nor loops forever. -/
theorem c9_wait_for_condition_spec (check : Nat → Bool)
    (timeout poll : Nat) (hp : 0 < poll) :
    (check 0 = true →
      TestLiveCdc.wait_for_condition check timeout poll hp = (true, 0)) ∧
    ((∀ e, check e = false) →
      (TestLiveCdc.wait_for_condition check timeout poll hp).1 = false ∧
      timeout ≤ (TestLiveCdc.wait_for_condition check timeout poll hp).2) := by
  constructor
  · intro h0
    unfold TestLiveCdc.wait_for_condition
    rw [Cdc.loopPost_hit _ _ _ _ _ ()
      (by simp [TestLiveCdc.condition_poll, h0])]
  · intro hnever
    unfold TestLiveCdc.wait_for_condition
    have hnone : ∀ e, e < timeout + poll →
        TestLiveCdc.condition_poll check e = none := by
      intro e _
      simp [TestLiveCdc.condition_poll, hnever e]
    obtain ⟨h1, h2⟩ := Cdc.loopPost_exhaust (TestLiveCdc.condition_poll check)
      timeout poll hp 0 hnone (by omega)
    rcases hres : Cdc.loopPost (TestLiveCdc.condition_poll check)
      timeout poll hp 0 with ⟨o, e⟩
    rw [hres] at h1 h2
    cases o with
    | some a => simp at h1
    | none => exact ⟨rfl, h2⟩

/-- C9 witness: a never-true predicate with a 3-second timeout and a
1-second poll interval. -/
theorem c9_wait_for_condition_spec_witness :
    (TestLiveCdc.wait_for_condition (fun _ => false) 3 1 (by decide)).1 =
      false ∧
    3 ≤ (TestLiveCdc.wait_for_condition (fun _ => false) 3 1 (by decide)).2 :=
  (c9_wait_for_condition_spec (fun _ => false) 3 1 (by decide)).2
    (fun _ => rfl)

/-- C10 (implicit): the bulk propagation check succeeds exactly when all
four counts equal the hard-coded constants (110 nodes, 445
relationships) on both sides; a fully converged source/target pair with
any other counts is reported as a failure; and a successful
wait_for_propagation only ever returns counts satisfying the
constant-equality check. -/
theorem c10_bulk_success_is_constant_equality :
    (∀ c : TestBulkCdc.BulkCounts,
      TestBulkCdc.check_counts c = true ↔
        (c.source_nodes = TestBulkCdc.EXPECTED_NODES ∧
         c.source_rels = TestBulkCdc.EXPECTED_RELS ∧
         c.target_nodes = TestBulkCdc.EXPECTED_NODES ∧
         c.target_rels = TestBulkCdc.EXPECTED_RELS)) ∧
    (∀ n r : Nat,
      n ≠ TestBulkCdc.EXPECTED_NODES ∨ r ≠ TestBulkCdc.EXPECTED_RELS →
      TestBulkCdc.check_counts ⟨n, r, n, r⟩ = false) ∧
    (∀ counts : Nat → TestBulkCdc.BulkCounts,
      ∀ c : TestBulkCdc.BulkCounts,
      (TestBulkCdc.wait_for_propagation counts).1 = some c →
      TestBulkCdc.check_counts c = true) := by
  refine ⟨?_, ?_, ?_⟩
  · intro c
    unfold TestBulkCdc.check_counts
    simp [Bool.and_eq_true, beq_iff_eq, and_assoc]
  · intro n r h
    unfold TestBulkCdc.check_counts
    rcases h with h | h <;> simp [h]
  · intro counts c hres
    unfold TestBulkCdc.wait_for_propagation at hres
    obtain ⟨e, he⟩ := Cdc.loopPost_some_of _ _ _ _ _ _ hres
    unfold TestBulkCdc.propagation_poll at he
    by_cases hc : TestBulkCdc.check_counts (counts e) = true
    · rw [if_pos hc] at he
      obtain rfl : counts e = c := by
        injection he
      exact hc
    · rw [if_neg hc] at he
      cases he

/-- C10 witness: a converged pair (100 nodes, 400 relationships on both
sides) is reported as a failure because it differs from the
constants. -/
theorem c10_bulk_success_is_constant_equality_witness :
    TestBulkCdc.check_counts ⟨100, 400, 100, 400⟩ = false :=
  c10_bulk_success_is_constant_equality.2.1 100 400 (Or.inl (by decide))
